import Mathlib

/-!
Shallow embedding of the ELID backend (device registry, transaction store,
device worker lifecycle manager) and proofs of its specified properties.

The embedding follows `src/backend/src`:
* `db/models.py`        → `Device`, `Transaction`, `DeviceType`, `DeviceStatus`
* `schema/*.py`         → `DeviceCreate`, `TransactionCreate`
* `services/device_service.py`      → `create_device`, `get_device_by_id`,
  `get_active_devices`, `toggle_device_status`
* `services/transaction_service.py` → `create_transaction`
* `services/device_worker.py`       → `WorkerState`, `start_device_worker`,
  `stop_device_worker`, `stop_all_workers`, `get_active_worker_count`,
  `is_worker_active`, `generate_transaction_payload`, and a small step
  semantics (`taskEmit`/`runSteps`) for the concurrently scheduled per-device
  loops of `device_worker`.
* `main.py` (lifespan startup loop)  → `reconcile_workers`

The SQL database is modelled as an in-memory `Store`; SQLAlchemy sessions
become explicit state passing; raised exceptions become `Except` results;
`random.*` calls take their raw draws from an explicit stream `r : Nat → Nat`.
-/

namespace ELID

/-- `DeviceType` enum from `db/models.py`. -/
inductive DeviceType
  | ACCESS_CONTROLLER
  | FACE_READER
  | ANPR
deriving DecidableEq

/-- `DeviceStatus` enum from `db/models.py`. -/
inductive DeviceStatus
  | INACTIVE
  | ACTIVE
deriving DecidableEq

/-- A JSON payload value: a string or a number.  Fractional values produced by
`round(random.uniform(..), 2)` are carried in hundredths as naturals. -/
inductive PValue
  | s (v : String)
  | n (v : Nat)
deriving DecidableEq

/-- `Device` row from `db/models.py`; ids and timestamps are opaque naturals. -/
structure Device where
  id : Nat
  name : String
  device_type : DeviceType
  ip_address : String
  status : DeviceStatus
  created_at : Nat
  updated_at : Nat
deriving DecidableEq

/-- `Transaction` row from `db/models.py`; the JSON payload is a key-value list. -/
structure Transaction where
  transaction_id : Nat
  device_id : Nat
  username : String
  event_type : String
  payload : List (String × PValue)
  timestamp : Nat
  created_at : Nat
deriving DecidableEq

/-- The relational store backing the services: the `devices` and
`transactions` tables, a fresh-id counter for generated primary keys, and the
current clock value used for `datetime.utcnow()`. -/
structure Store where
  devices : List Device
  transactions : List Transaction
  next_id : Nat
  now : Nat
deriving DecidableEq

/-- `DeviceCreate` schema from `schema/device.py`: it exposes exactly the
fields `name`, `device_type` and `ip_address` — there is no status field. -/
structure DeviceCreate where
  name : String
  device_type : String
  ip_address : String
deriving DecidableEq

/-- `TransactionCreate` schema from `schema/transaction.py`. -/
structure TransactionCreate where
  username : String
  event_type : String
  payload : List (String × PValue)
  device_id : Nat
deriving DecidableEq

/-- Service-level failures: `notFound` is the `ValueError` raised by
`create_transaction` for a missing device (the spec's NotFoundError) and
`validation` the `ValueError` raised by `create_device` for a bad
`device_type` (the spec's ValidationError).  The pure store model never
produces the commit-time `IntegrityError`. -/
inductive SvcError
  | notFound (device_id : Nat)
  | validation
deriving DecidableEq

/-- `db.query(Device).filter(Device.id == device_id).first()`. -/
def findDevice (device_id : Nat) : List Device → Option Device
  | [] => none
  | dv :: rest => if dv.id = device_id then some dv else findDevice device_id rest

/-- Existence test used by `create_transaction` before inserting. -/
def deviceExists (db : Store) (device_id : Nat) : Bool :=
  (findDevice device_id db.devices).isSome

/-- `get_device_by_id` from `device_service.py`. -/
def get_device_by_id (db : Store) (device_id : Nat) : Option Device :=
  findDevice device_id db.devices

/-- `get_active_devices` from `device_service.py`: all devices whose status is
`ACTIVE`. -/
def get_active_devices (db : Store) : List Device :=
  db.devices.filter (fun dv => dv.status == DeviceStatus.ACTIVE)

/-- The SQLAlchemy commit of a mutated ORM row: every stored row with the
updated row's primary key is replaced by it. -/
def updateDevice (dv' : Device) : List Device → List Device
  | [] => []
  | dv :: rest =>
      (if dv.id = dv'.id then dv' else dv) :: updateDevice dv' rest

/-- Python `str.upper()`, applied per character. -/
def strUpper (s : String) : String :=
  String.mk (s.data.map Char.toUpper)

/-- `DeviceType[device_data.device_type.upper()]`: enum lookup by member name,
`none` for the `KeyError` case. -/
def DeviceTypeOfString (s : String) : Option DeviceType :=
  if strUpper s = "ACCESS_CONTROLLER" then some DeviceType.ACCESS_CONTROLLER
  else if strUpper s = "FACE_READER" then some DeviceType.FACE_READER
  else if strUpper s = "ANPR" then some DeviceType.ANPR
  else none

/-- `create_device` from `device_service.py`: validate the device type, then
insert a new row whose status is unconditionally `INACTIVE`. -/
def create_device (db : Store) (device_data : DeviceCreate) :
    Store × Except SvcError Device :=
  match DeviceTypeOfString device_data.device_type with
  | none => (db, Except.error SvcError.validation)
  | some t =>
      let dv : Device :=
        { id := db.next_id
          name := device_data.name
          device_type := t
          ip_address := device_data.ip_address
          status := DeviceStatus.INACTIVE
          created_at := db.now
          updated_at := db.now }
      ({ db with devices := dv :: db.devices, next_id := db.next_id + 1 },
       Except.ok dv)

/-- `toggle_device_status` from `device_service.py`: flip the status of the
device between `ACTIVE` and `INACTIVE`; `none` when the device is absent. -/
def toggle_device_status (db : Store) (device_id : Nat) :
    Store × Option Device :=
  match get_device_by_id db device_id with
  | none => (db, none)
  | some dv =>
      let dv' : Device :=
        { dv with
            status := if dv.status = DeviceStatus.ACTIVE
                      then DeviceStatus.INACTIVE else DeviceStatus.ACTIVE
            updated_at := db.now }
      ({ db with devices := updateDevice dv' db.devices }, some dv')

/-- The updated row produced by one `toggle_device_status` call on `dv`
(status flipped, `updated_at` refreshed); used to state its behaviour. -/
def toggledDevice (db : Store) (dv : Device) : Device :=
  { dv with
      status := if dv.status = DeviceStatus.ACTIVE
                then DeviceStatus.INACTIVE else DeviceStatus.ACTIVE
      updated_at := db.now }

/-- `create_transaction` from `transaction_service.py`: verify the device
exists (raising the not-found `ValueError` otherwise, with the store
untouched), then insert the transaction row. -/
def create_transaction (db : Store) (transaction_data : TransactionCreate) :
    Store × Except SvcError Transaction :=
  match findDevice transaction_data.device_id db.devices with
  | none => (db, Except.error (SvcError.notFound transaction_data.device_id))
  | some _ =>
      let tx : Transaction :=
        { transaction_id := db.next_id
          device_id := transaction_data.device_id
          username := transaction_data.username
          event_type := transaction_data.event_type
          payload := transaction_data.payload
          timestamp := db.now
          created_at := db.now }
      ({ db with transactions := tx :: db.transactions, next_id := db.next_id + 1 },
       Except.ok tx)

/-!
Worker lifecycle manager (`services/device_worker.py`).

Each `asyncio.Task` spawned by `start_device_worker` is modelled as a `WTask`
record whose `cancelled` flag records whether the task has been cancelled and
has exited (in the source, `stop_device_worker` cancels the task and then
awaits it, so cancellation and termination coincide by the time `stop`
returns: the per-iteration `asyncio.sleep` is a prompt cancellation point).
The global `active_workers` dict is an association list from device id to
task id.  Emitted transactions are abstracted by `txLog`, the list of device
ids of emissions, newest first.
-/

/-- A spawned worker task: its task id, the arguments `device_worker` was
started with, and whether it has been cancelled. -/
structure WTask where
  tid : Nat
  devId : Nat
  devName : String
  devType : DeviceType
  cancelled : Bool
deriving DecidableEq

/-- The process-local state of `device_worker.py`: the `active_workers` dict
(association list from device id to task id), every task spawned so far, a
fresh task-id counter, and the log of emitted transactions (device ids,
newest first). -/
structure WorkerState where
  active_workers : List (Nat × Nat)
  tasks : List WTask
  nextTid : Nat
  txLog : List Nat
deriving DecidableEq

/-- Dict lookup `active_workers[device_id]`. -/
def lookupWorker (device_id : Nat) : List (Nat × Nat) → Option Nat
  | [] => none
  | p :: rest => if p.1 = device_id then some p.2 else lookupWorker device_id rest

/-- Dict deletion `del active_workers[device_id]`. -/
def removeWorker (device_id : Nat) : List (Nat × Nat) → List (Nat × Nat)
  | [] => []
  | p :: rest =>
      if p.1 = device_id then removeWorker device_id rest
      else p :: removeWorker device_id rest

/-- The set of registered device ids (`active_workers.keys()`). -/
def wkeys (s : WorkerState) : List Nat :=
  s.active_workers.map Prod.fst

/-- `task.cancel()` followed by `await task`: the task with the given id is
marked cancelled (and, the sleep being a prompt cancellation point, has
exited by the time the call returns). -/
def cancelTask (tid : Nat) (l : List WTask) : List WTask :=
  l.map (fun t => if t.tid = tid then { t with cancelled := true } else t)

/-- `start_device_worker` from `device_worker.py`: no-op returning `false`
when a worker is already registered for the device; otherwise spawn a task
running `device_worker`, register it, and return `true`. -/
def start_device_worker (s : WorkerState) (device_id : Nat)
    (device_name : String) (device_type : DeviceType) : WorkerState × Bool :=
  if (lookupWorker device_id s.active_workers).isSome then (s, false)
  else
    ({ s with
        active_workers := (device_id, s.nextTid) :: s.active_workers
        tasks :=
          { tid := s.nextTid, devId := device_id, devName := device_name
            devType := device_type, cancelled := false } :: s.tasks
        nextTid := s.nextTid + 1 },
     true)

/-- `stop_device_worker` from `device_worker.py`: `false` when no worker is
registered; otherwise cancel the registered task, await its termination,
deregister it and return `true`. -/
def stop_device_worker (s : WorkerState) (device_id : Nat) :
    WorkerState × Bool :=
  match lookupWorker device_id s.active_workers with
  | none => (s, false)
  | some tid =>
      ({ s with
          tasks := cancelTask tid s.tasks
          active_workers := removeWorker device_id s.active_workers },
       true)

/-- `get_active_worker_count` from `device_worker.py`. -/
def get_active_worker_count (s : WorkerState) : Nat :=
  s.active_workers.length

/-- `is_worker_active` from `device_worker.py`. -/
def is_worker_active (s : WorkerState) (device_id : Nat) : Bool :=
  (lookupWorker device_id s.active_workers).isSome

/-- `stop_all_workers` from `device_worker.py`: snapshot the registered
device ids and stop each one in turn. -/
def stop_all_workers (s : WorkerState) : WorkerState :=
  (wkeys s).foldl (fun acc device_id => (stop_device_worker acc device_id).1) s

/-- One scheduler step of the spawned `device_worker` loops: the task with id
`tid` reaches the emission point of its loop body.  A cancelled (hence
exited) task emits nothing; a running task emits one transaction for its
device. -/
def taskEmit (s : WorkerState) (tid : Nat) : WorkerState :=
  match s.tasks.find? (fun t => t.tid == tid) with
  | none => s
  | some t => if t.cancelled then s else { s with txLog := t.devId :: s.txLog }

/-- An arbitrary interleaving of scheduler steps of the worker tasks. -/
def runSteps (s : WorkerState) : List Nat → WorkerState
  | [] => s
  | tid :: rest => runSteps (taskEmit s tid) rest

/-- Registry invariant maintained by the lifecycle operations: every task
that is still running is registered in `active_workers` under its device id
and task id. -/
def WorkerInv (s : WorkerState) : Prop :=
  ∀ t ∈ s.tasks, t.cancelled = false → (t.devId, t.tid) ∈ s.active_workers

instance (s : WorkerState) : Decidable (WorkerInv s) :=
  decidable_of_iff
    (∀ t ∈ s.tasks, t.cancelled = false → (t.devId, t.tid) ∈ s.active_workers)
    Iff.rfl

/-- The worker-start loop inside `lifespan` (`main.py`): the whole loop body
sits inside a single `try`, so an exception raised while processing one
device is logged at the outer level and ends the loop — the state reached so
far is kept, the remaining devices are not processed.  `fails dv` says
whether processing device `dv` raises. -/
def reconcile_workers (fails : Device → Bool) :
    WorkerState → List Device → WorkerState
  | s, [] => s
  | s, dv :: rest =>
      if fails dv then s
      else reconcile_workers fails
        (start_device_worker s dv.id dv.name dv.device_type).1 rest

/-!
Payload generation and the per-device loop body
(`generate_transaction_payload` and `device_worker` in `device_worker.py`).
-/

/-- `random.randint(lo, hi)` (both ends inclusive), fed by raw draw `r`. -/
def randint (lo hi r : Nat) : Nat :=
  lo + r % (hi - lo + 1)

/-- `random.choice(l)` / one draw of `random.choices`, fed by raw draw `r`. -/
def choice {α : Type} (l : List α) (d : α) (r : Nat) : α :=
  l.getD (r % l.length) d

/-- `SAMPLE_USERNAMES` from `device_worker.py`. -/
def SAMPLE_USERNAMES : List String :=
  ["john.doe", "jane.smith", "bob.jones", "alice.williams",
   "charlie.brown", "diana.prince", "evan.davis", "fiona.garcia"]

/-- `EVENT_TYPES` from `device_worker.py` (total on the enum, so the
`["generic_event"]` fallback of `.get` is unreachable). -/
def EVENT_TYPES : DeviceType → List String
  | DeviceType.ACCESS_CONTROLLER =>
      ["access_granted", "access_denied", "door_opened", "door_closed",
       "access_timeout"]
  | DeviceType.FACE_READER =>
      ["face_match", "face_no_match", "face_detected", "multiple_faces",
       "face_recognition_error"]
  | DeviceType.ANPR =>
      ["plate_read", "plate_match", "plate_no_match", "invalid_plate",
       "vehicle_detected"]

/-- The alphabet `plate_chars` of `generate_transaction_payload`. -/
def PLATE_CHARS : String := "ABCDEFGHIJKLMNOPQRSTUVWXYZ"

/-- The alphabet `plate_nums` of `generate_transaction_payload`. -/
def PLATE_NUMS : String := "0123456789"

/-- The vehicle types of the anpr branch of `generate_transaction_payload`. -/
def VEHICLE_TYPES : List String :=
  ["car", "truck", "motorcycle", "van"]

/-- The plate number built in the anpr branch: three draws from
`plate_chars`, a hyphen, four draws from `plate_nums`. -/
def plateNumber (r : Nat → Nat) : String :=
  String.mk
    [choice PLATE_CHARS.data 'A' (r 2), choice PLATE_CHARS.data 'A' (r 3),
     choice PLATE_CHARS.data 'A' (r 4), '-',
     choice PLATE_NUMS.data '0' (r 5), choice PLATE_NUMS.data '0' (r 6),
     choice PLATE_NUMS.data '0' (r 7), choice PLATE_NUMS.data '0' (r 8)]

/-- `generate_transaction_payload` from `device_worker.py`.  The stream `r`
supplies the raw draws of the `random.*` calls in evaluation order; the two
`round(random.uniform(..), 2)` values are carried in hundredths. -/
def generate_transaction_payload (device_type : DeviceType)
    (event_type : String) (r : Nat → Nat) : List (String × PValue) :=
  let payload : List (String × PValue) :=
    [("confidence", PValue.n (75 + r 0 % 25)),
     ("processing_time_ms", PValue.n (randint 50 500 (r 1)))]
  match device_type with
  | DeviceType.ACCESS_CONTROLLER =>
      payload ++
      [("card_number",
        PValue.s (toString (randint 1000 9999 (r 2)) ++ "-" ++
                  toString (randint 1000 9999 (r 3)))),
       ("reader_id", PValue.s ("READER-" ++ toString (randint 1 10 (r 4))))]
  | DeviceType.FACE_READER =>
      payload ++
      [("face_id", PValue.s ("FACE-" ++ toString (randint 1000 9999 (r 2)))),
       ("image_quality", PValue.n (60 + r 3 % 41))]
  | DeviceType.ANPR =>
      payload ++
      [("plate_number", PValue.s (plateNumber r)),
       ("camera_id", PValue.s ("CAM-" ++ toString (randint 1 5 (r 9)))),
       ("vehicle_type", PValue.s (choice VEHICLE_TYPES "car" (r 10)))]

/-- Decidable form of the regular expression `[A-Z]\x7b3\x7d-[0-9]\x7b4\x7d`. -/
def isUpperAZ (c : Char) : Bool :=
  'A' ≤ c && c ≤ 'Z'

/-- Decidable digit test for the plate pattern. -/
def isDigit09 (c : Char) : Bool :=
  '0' ≤ c && c ≤ '9'

/-- A string matches `[A-Z]\x7b3\x7d-[0-9]\x7b4\x7d` exactly. -/
def platePattern (s : String) : Bool :=
  match s.data with
  | [a, b, c, h, w, x, y, z] =>
      isUpperAZ a && isUpperAZ b && isUpperAZ c && (h == '-') &&
      isDigit09 w && isDigit09 x && isDigit09 y && isDigit09 z
  | _ => false

/-!
The loop body of `device_worker`, at store level.  One iteration wakes from
the sleep, picks its username/event/payload, and tries `create_transaction`
on a fresh session; any raised exception is caught by the `except Exception`
inside the loop, logged, and the loop continues.  Concurrent store mutation
by other actors — the reason an emission can fail mid-run ("device no longer
exists in the store") — is modelled by an environment that sets the device's
presence before each iteration.
-/

/-- One iteration body of `device_worker` after waking: attempt the insert;
on failure the exception is swallowed (logged) and the store is unchanged. -/
def worker_iteration (db : Store) (device_id : Nat)
    (username event_type : String) (payload : List (String × PValue)) : Store :=
  (create_transaction db
    { username := username, event_type := event_type
      payload := payload, device_id := device_id }).1

/-- Remove every row of the given device id (cascade of a device delete). -/
def removeDeviceById (device_id : Nat) : List Device → List Device
  | [] => []
  | dv :: rest =>
      if dv.id = device_id then removeDeviceById device_id rest
      else dv :: removeDeviceById device_id rest

/-- Environment interference between two worker iterations: another actor
makes the device present (recreating it if missing) or absent (deleting it). -/
def setPresence (db : Store) (device_id : Nat) (present : Bool) : Store :=
  if present then
    if deviceExists db device_id then db
    else
      { db with
          devices :=
            { id := device_id, name := "restored", device_type := DeviceType.ANPR
              ip_address := "0.0.0.0", status := DeviceStatus.ACTIVE
              created_at := db.now, updated_at := db.now } :: db.devices }
  else
    { db with devices := removeDeviceById device_id db.devices }

/-- `k` iterations of the `device_worker` loop starting at iteration index
`i`: before each iteration the environment fixes the device's presence
(`env`), then the loop body runs with that iteration's username, event type
and payload. -/
def device_worker_from (device_id : Nat) (env : Nat → Bool)
    (uname etype : Nat → String) (pl : Nat → List (String × PValue)) :
    Nat → Nat → Store → Store
  | _, 0, db => db
  | i, Nat.succ k, db =>
      device_worker_from device_id env uname etype pl (i + 1) k
        (worker_iteration (setPresence db device_id (env i)) device_id
          (uname i) (etype i) (pl i))

/-- `n` iterations of the `device_worker` loop from iteration 0. -/
def device_worker_run (device_id : Nat) (env : Nat → Bool)
    (uname etype : Nat → String) (pl : Nat → List (String × PValue))
    (n : Nat) (db : Store) : Store :=
  device_worker_from device_id env uname etype pl 0 n db

/-- Number of stored transactions owned by the given device. -/
def txCountFor (db : Store) (device_id : Nat) : Nat :=
  db.transactions.countP (fun tx => tx.device_id == device_id)

/-- How many of the iterations `i, i+1, …, i+k-1` have `env` true. -/
def envCount (env : Nat → Bool) : Nat → Nat → Nat
  | _, 0 => 0
  | i, Nat.succ k => (if env i then 1 else 0) + envCount env (i + 1) k

/-! Helper lemmas about the registry association list and store lookups. -/

lemma lookupWorker_isSome_iff (device_id : Nat) (l : List (Nat × Nat)) :
    (lookupWorker device_id l).isSome = true ↔ device_id ∈ l.map Prod.fst := by
  induction l with
  | nil => simp [lookupWorker]
  | cons p rest ih =>
      by_cases h : p.1 = device_id
      · simp [lookupWorker, h]
      · simp only [lookupWorker, if_neg h, List.map_cons, List.mem_cons, ih]
        constructor
        · exact fun hm => Or.inr hm
        · rintro (hm | hm)
          · exact absurd hm.symm h
          · exact hm

lemma lookupWorker_eq_none (device_id : Nat) (l : List (Nat × Nat))
    (h : device_id ∉ l.map Prod.fst) : lookupWorker device_id l = none := by
  rcases ho : lookupWorker device_id l with _ | tid
  · rfl
  · exact absurd ((lookupWorker_isSome_iff device_id l).1 (by simp [ho])) h

lemma lookupWorker_mem {device_id tid : Nat} {l : List (Nat × Nat)}
    (h : lookupWorker device_id l = some tid) : (device_id, tid) ∈ l := by
  induction l with
  | nil => simp [lookupWorker] at h
  | cons p rest ih =>
      by_cases hp : p.1 = device_id
      · rw [lookupWorker, if_pos hp] at h
        injection h with h2
        have hp2 : p = (device_id, tid) := by
          cases p
          simp_all
        rw [hp2]
        exact List.mem_cons_self _ _
      · rw [lookupWorker, if_neg hp] at h
        exact List.mem_cons_of_mem _ (ih h)

lemma lookupWorker_of_mem_nodup {device_id tid : Nat} {l : List (Nat × Nat)}
    (hnd : (l.map Prod.fst).Nodup) (h : (device_id, tid) ∈ l) :
    lookupWorker device_id l = some tid := by
  induction l with
  | nil => simp at h
  | cons p rest ih =>
      rw [List.map_cons, List.nodup_cons] at hnd
      rcases List.mem_cons.1 h with h | h
      · rw [← h, lookupWorker, if_pos rfl]
      · have hne : p.1 ≠ device_id := by
          intro he
          apply hnd.1
          rw [he]
          exact List.mem_map_of_mem Prod.fst h
        rw [lookupWorker, if_neg hne]
        exact ih hnd.2 h

lemma removeWorker_of_not_mem (device_id : Nat) (l : List (Nat × Nat))
    (h : device_id ∉ l.map Prod.fst) : removeWorker device_id l = l := by
  induction l with
  | nil => rfl
  | cons p rest ih =>
      simp only [List.map_cons, List.mem_cons] at h
      push_neg at h
      rw [removeWorker, if_neg (fun he => h.1 he.symm), ih h.2]

lemma mem_removeWorker_of_ne {a b device_id : Nat} {l : List (Nat × Nat)}
    (h : (a, b) ∈ l) (hne : a ≠ device_id) :
    (a, b) ∈ removeWorker device_id l := by
  induction l with
  | nil => simp at h
  | cons p rest ih =>
      rcases List.mem_cons.1 h with h | h
      · rw [removeWorker, if_neg (by rw [← h]; exact hne), h]
        exact List.mem_cons_self _ _
      · by_cases hp : p.1 = device_id
        · rw [removeWorker, if_pos hp]
          exact ih h
        · rw [removeWorker, if_neg hp]
          exact List.mem_cons_of_mem _ (ih h)

lemma removeWorker_map_fst {device_id : Nat} {l : List (Nat × Nat)}
    {L : List Nat} (h : l.map Prod.fst = device_id :: L) (hL : device_id ∉ L) :
    (removeWorker device_id l).map Prod.fst = L := by
  cases l with
  | nil => simp at h
  | cons p rest =>
      rw [List.map_cons] at h
      injection h with h1 h2
      rw [removeWorker, if_pos h1, removeWorker_of_not_mem _ _ (h2 ▸ hL), h2]

lemma findDevice_eq_some_id {device_id : Nat} {dv : Device} {l : List Device}
    (h : findDevice device_id l = some dv) : dv.id = device_id := by
  induction l with
  | nil => simp [findDevice] at h
  | cons e rest ih =>
      by_cases he : e.id = device_id
      · rw [findDevice, if_pos he] at h
        cases h
        exact he
      · rw [findDevice, if_neg he] at h
        exact ih h

lemma findDevice_updateDevice {device_id : Nat} {dv : Device} {l : List Device}
    (h : findDevice device_id l = some dv) (dv' : Device)
    (hid : dv'.id = device_id) :
    findDevice device_id (updateDevice dv' l) = some dv' := by
  induction l with
  | nil => simp [findDevice] at h
  | cons e rest ih =>
      by_cases he : e.id = device_id
      · rw [updateDevice, if_pos (by rw [hid]; exact he), findDevice,
          if_pos hid]
      · rw [findDevice, if_neg he] at h
        rw [updateDevice, if_neg (by rw [hid]; exact he), findDevice,
          if_neg he]
        exact ih h

lemma findDevice_removeDeviceById (device_id : Nat) (l : List Device) :
    findDevice device_id (removeDeviceById device_id l) = none := by
  induction l with
  | nil => rfl
  | cons e rest ih =>
      by_cases he : e.id = device_id
      · rw [removeDeviceById, if_pos he]
        exact ih
      · rw [removeDeviceById, if_neg he, findDevice, if_neg he]
        exact ih

/-! Lemmas about the scheduler steps of the worker tasks. -/

lemma taskEmit_tasks (s : WorkerState) (tid : Nat) :
    (taskEmit s tid).tasks = s.tasks := by
  unfold taskEmit
  rcases hf : s.tasks.find? (fun t => t.tid == tid) with _ | t
  · rw [hf]
  · rw [hf]
    by_cases hc : t.cancelled <;> simp [hc]

lemma count_taskEmit (d : Nat) (s : WorkerState) (tid : Nat)
    (h : ∀ t ∈ s.tasks, t.devId = d → t.cancelled = true) :
    (taskEmit s tid).txLog.count d = s.txLog.count d := by
  unfold taskEmit
  rcases hf : s.tasks.find? (fun t => t.tid == tid) with _ | t
  · rw [hf]
  · rw [hf]
    by_cases hc : t.cancelled
    · simp [hc]
    · have hmem : t ∈ s.tasks := List.mem_of_find?_eq_some hf
      have hne : t.devId ≠ d := by
        intro he
        rw [h t hmem he] at hc
        exact hc rfl
      simp [hc, List.count_cons, hne]

lemma runSteps_count_eq (d : Nat) (steps : List Nat) : ∀ s : WorkerState,
    (∀ t ∈ s.tasks, t.devId = d → t.cancelled = true) →
    (runSteps s steps).txLog.count d = s.txLog.count d := by
  induction steps with
  | nil => intro s _; rfl
  | cons tid rest ih =>
      intro s h
      rw [runSteps]
      have h' : ∀ t ∈ (taskEmit s tid).tasks, t.devId = d → t.cancelled = true := by
        rw [taskEmit_tasks]
        exact h
      rw [ih _ h', count_taskEmit d s tid h]

lemma stop_cancels_all (s : WorkerState) (d : Nat)
    (hInv : WorkerInv s) (hnd : (wkeys s).Nodup) {tid : Nat}
    (hlk : lookupWorker d s.active_workers = some tid) :
    ∀ t ∈ cancelTask tid s.tasks, t.devId = d → t.cancelled = true := by
  intro t' ht' hdev
  rcases List.mem_map.1 ht' with ⟨t, htmem, hmap⟩
  by_cases htid : t.tid = tid
  · rw [← hmap, if_pos htid]
  · rw [← hmap, if_neg htid] at hdev ⊢
    by_cases hc : t.cancelled = true
    · exact hc
    · exfalso
      have hc' : t.cancelled = false := by
        revert hc
        cases t.cancelled <;> simp
      have hmem2 := hInv t htmem hc'
      rw [hdev] at hmem2
      have := lookupWorker_of_mem_nodup hnd hmem2
      rw [hlk] at this
      injection this with h2
      exact htid h2.symm

lemma WorkerInv_stop (s : WorkerState) (d : Nat)
    (hInv : WorkerInv s) (hnd : (wkeys s).Nodup) :
    WorkerInv (stop_device_worker s d).1 := by
  rcases ho : lookupWorker d s.active_workers with _ | tid
  · rw [stop_device_worker, ho]
    exact hInv
  · rw [stop_device_worker, ho]
    intro t' ht' hc'
    rcases List.mem_map.1 ht' with ⟨t, htmem, hmap⟩
    by_cases htid : t.tid = tid
    · rw [← hmap, if_pos htid] at hc'
      simp at hc'
    · rw [← hmap, if_neg htid] at hc' ⊢
      have hmem := hInv t htmem hc'
      have hdne : t.devId ≠ d := by
        intro he
        have hlk2 := lookupWorker_of_mem_nodup hnd (he ▸ hmem)
        rw [ho] at hlk2
        injection hlk2 with h2
        exact htid h2.symm
      exact mem_removeWorker_of_ne hmem hdne

lemma stop_all_aux : ∀ (L : List Nat) (s : WorkerState),
    wkeys s = L → L.Nodup → WorkerInv s →
    ((L.foldl (fun acc device_id => (stop_device_worker acc device_id).1) s).active_workers = [] ∧
     WorkerInv (L.foldl (fun acc device_id => (stop_device_worker acc device_id).1) s)) := by
  intro L
  induction L with
  | nil =>
      intro s hk _ hInv
      rw [List.foldl_nil]
      exact ⟨List.map_eq_nil_iff.1 hk, hInv⟩
  | cons d L' ih =>
      intro s hk hnd hInv
      rw [List.foldl_cons]
      have hmem : d ∈ wkeys s := by
        rw [hk]
        exact List.mem_cons_self _ _
      rcases ho : lookupWorker d s.active_workers with _ | tid
      · exact absurd ((lookupWorker_isSome_iff d s.active_workers).2 hmem)
          (by rw [ho]; simp)
      · have hndc := List.nodup_cons.1 hnd
        have hstop : (stop_device_worker s d).1 =
            { s with
                tasks := cancelTask tid s.tasks
                active_workers := removeWorker d s.active_workers } := by
          rw [stop_device_worker, ho]
        have hk' : wkeys (stop_device_worker s d).1 = L' := by
          rw [hstop]
          exact removeWorker_map_fst hk hndc.1
        have hinv' : WorkerInv (stop_device_worker s d).1 :=
          WorkerInv_stop s d hInv (hk.symm ▸ hnd)
        exact ih _ hk' hndc.2 hinv'

/-! Claim theorems for the worker lifecycle manager. -/

/-- C1: starting a worker when a handle is already registered for the device
id returns false and is a no-op; starting when no handle exists registers
exactly one handle for that id and returns true, and an immediately repeated
Start returns false leaving the state unchanged, so exactly one handle for
that id remains. -/
theorem start_device_worker_idempotent (s : WorkerState) (d : Nat)
    (device_name : String) (device_type : DeviceType) :
    (d ∈ wkeys s → start_device_worker s d device_name device_type = (s, false)) ∧
    (d ∉ wkeys s →
      (start_device_worker s d device_name device_type).2 = true ∧
      (wkeys (start_device_worker s d device_name device_type).1).count d = 1 ∧
      start_device_worker (start_device_worker s d device_name device_type).1
          d device_name device_type =
        ((start_device_worker s d device_name device_type).1, false)) := by
  constructor
  · intro hmem
    have hs : (lookupWorker d s.active_workers).isSome = true :=
      (lookupWorker_isSome_iff d s.active_workers).2 hmem
    rw [start_device_worker, if_pos hs]
  · intro hmem
    have hnone : lookupWorker d s.active_workers = none :=
      lookupWorker_eq_none d _ hmem
    have hns : ¬ ((lookupWorker d s.active_workers).isSome = true) := by
      rw [hnone]
      simp
    rw [start_device_worker, if_neg hns]
    refine ⟨rfl, ?_, ?_⟩
    · show (((d, s.nextTid) :: s.active_workers).map Prod.fst).count d = 1
      have h0 : (s.active_workers.map Prod.fst).count d = 0 :=
        List.count_eq_zero.2 hmem
      rw [List.map_cons, List.count_cons_self, h0]
    · simp [start_device_worker, lookupWorker]

/-- C6: stopping a device id with no registered handle returns false and
leaves the whole worker state exactly unchanged. -/
theorem stop_device_worker_unregistered (s : WorkerState) (d : Nat)
    (h : d ∉ wkeys s) :
    stop_device_worker s d = (s, false) := by
  have hnone : lookupWorker d s.active_workers = none :=
    lookupWorker_eq_none d _ h
  rw [stop_device_worker, hnone]

/-- C6 witness: stopping an unregistered id on a state with one other worker. -/
theorem stop_device_worker_unregistered_witness :
    stop_device_worker
        { active_workers := [(1, 0)]
          tasks := [{ tid := 0, devId := 1, devName := "door", devType := DeviceType.ACCESS_CONTROLLER, cancelled := false }]
          nextTid := 1, txLog := [] } 2 =
      ({ active_workers := [(1, 0)]
         tasks := [{ tid := 0, devId := 1, devName := "door", devType := DeviceType.ACCESS_CONTROLLER, cancelled := false }]
         nextTid := 1, txLog := [] }, false) :=
  stop_device_worker_unregistered _ 2 (by decide)

/-- C2: once Stop returns true, the stopped device's worker can emit no
further transaction under any further scheduling of the worker tasks; in
particular after a Start of a previously unregistered id, followed
immediately by a Stop, the Stop returns true, the active count returns to
its prior value, no emission happened in between, and no transaction for the
device is ever emitted afterwards. -/
theorem stop_device_worker_halts_emission (s : WorkerState) (d : Nat)
    (device_name : String) (device_type : DeviceType)
    (hInv : WorkerInv s) (hnd : (wkeys s).Nodup) :
    (d ∈ wkeys s →
      (stop_device_worker s d).2 = true ∧
      ∀ steps : List Nat,
        (runSteps (stop_device_worker s d).1 steps).txLog.count d =
          (stop_device_worker s d).1.txLog.count d) ∧
    (d ∉ wkeys s →
      (stop_device_worker (start_device_worker s d device_name device_type).1 d).2 = true ∧
      get_active_worker_count
          (stop_device_worker (start_device_worker s d device_name device_type).1 d).1 =
        get_active_worker_count s ∧
      (stop_device_worker (start_device_worker s d device_name device_type).1 d).1.txLog
          = s.txLog ∧
      ∀ steps : List Nat,
        (runSteps
            (stop_device_worker (start_device_worker s d device_name device_type).1 d).1
            steps).txLog.count d =
          s.txLog.count d) := by
  constructor
  · intro hmem
    rcases ho : lookupWorker d s.active_workers with _ | tid
    · exact absurd ((lookupWorker_isSome_iff d s.active_workers).2 hmem)
        (by rw [ho]; simp)
    · rw [stop_device_worker, ho]
      exact ⟨rfl, fun steps =>
        runSteps_count_eq d steps _ (stop_cancels_all s d hInv hnd ho)⟩
  · intro hmem
    have hnone : lookupWorker d s.active_workers = none :=
      lookupWorker_eq_none d _ hmem
    have hns : ¬ ((lookupWorker d s.active_workers).isSome = true) := by
      rw [hnone]
      simp
    have hrm : removeWorker d s.active_workers = s.active_workers :=
      removeWorker_of_not_mem d _ hmem
    have hcanc : ∀ t ∈ cancelTask s.nextTid
        ({ tid := s.nextTid, devId := d, devName := device_name
           devType := device_type, cancelled := false } :: s.tasks),
        t.devId = d → t.cancelled = true := by
      intro t' ht' hdev
      rcases List.mem_map.1 ht' with ⟨t, htmem, hmap⟩
      rcases List.mem_cons.1 htmem with hth | hth
      · rw [← hmap, hth]
        simp
      · by_cases htid : t.tid = s.nextTid
        · rw [← hmap, if_pos htid]
        · rw [← hmap, if_neg htid] at hdev ⊢
          by_cases hc : t.cancelled = true
          · exact hc
          · exfalso
            have hc' : t.cancelled = false := by
              revert hc
              cases t.cancelled <;> simp
            have hmem2 := hInv t hth hc'
            rw [hdev] at hmem2
            exact hmem (List.mem_map_of_mem Prod.fst hmem2)
    have hs1 : (start_device_worker s d device_name device_type).1 =
        { active_workers := (d, s.nextTid) :: s.active_workers
          tasks := { tid := s.nextTid, devId := d, devName := device_name
                     devType := device_type, cancelled := false } :: s.tasks
          nextTid := s.nextTid + 1
          txLog := s.txLog } := by
      rw [start_device_worker, if_neg hns]
    have hs2 : stop_device_worker (start_device_worker s d device_name device_type).1 d =
        ({ active_workers := s.active_workers
           tasks := cancelTask s.nextTid
             ({ tid := s.nextTid, devId := d, devName := device_name
                devType := device_type, cancelled := false } :: s.tasks)
           nextTid := s.nextTid + 1
           txLog := s.txLog }, true) := by
      rw [hs1]
      simp [stop_device_worker, lookupWorker, removeWorker, hrm]
    refine ⟨?_, ?_, ?_, ?_⟩
    · rw [hs2]
    · rw [hs2]
      rfl
    · rw [hs2]
    · intro steps
      rw [hs2]
      exact runSteps_count_eq d steps _ hcanc

/-- C2 witness: starting then stopping device 7 on the empty state; the Stop
returns true, the count returns to 0, and a subsequent schedule of steps
emits nothing for device 7. -/
theorem stop_device_worker_halts_emission_witness :
    (stop_device_worker
        (start_device_worker { active_workers := [], tasks := [], nextTid := 0, txLog := [] }
          7 "g" DeviceType.ANPR).1 7).2 = true ∧
    get_active_worker_count
        (stop_device_worker
          (start_device_worker { active_workers := [], tasks := [], nextTid := 0, txLog := [] }
            7 "g" DeviceType.ANPR).1 7).1 =
      get_active_worker_count { active_workers := [], tasks := [], nextTid := 0, txLog := [] } ∧
    (runSteps
        (stop_device_worker
          (start_device_worker { active_workers := [], tasks := [], nextTid := 0, txLog := [] }
            7 "g" DeviceType.ANPR).1 7).1 [0, 1, 0]).txLog.count 7 =
      List.count 7 ({ active_workers := [], tasks := [], nextTid := 0, txLog := [] } : WorkerState).txLog :=
  ⟨((stop_device_worker_halts_emission
      { active_workers := [], tasks := [], nextTid := 0, txLog := [] }
      7 "g" DeviceType.ANPR (by decide) (by decide)).2 (by decide)).1,
   ((stop_device_worker_halts_emission
      { active_workers := [], tasks := [], nextTid := 0, txLog := [] }
      7 "g" DeviceType.ANPR (by decide) (by decide)).2 (by decide)).2.1,
   ((stop_device_worker_halts_emission
      { active_workers := [], tasks := [], nextTid := 0, txLog := [] }
      7 "g" DeviceType.ANPR (by decide) (by decide)).2 (by decide)).2.2.2 [0, 1, 0]⟩

/-- C3: StopAll leaves the registry empty whatever the initial registry
held: the worker map is empty, the active count is zero, and every spawned
task has been cancelled (no execution unit still running). -/
theorem stop_all_workers_clears (s : WorkerState)
    (hInv : WorkerInv s) (hnd : (wkeys s).Nodup) :
    (stop_all_workers s).active_workers = [] ∧
    get_active_worker_count (stop_all_workers s) = 0 ∧
    ∀ t ∈ (stop_all_workers s).tasks, t.cancelled = true := by
  have h := stop_all_aux (wkeys s) s rfl hnd hInv
  have h1 : (stop_all_workers s).active_workers = [] := h.1
  have h2 : WorkerInv (stop_all_workers s) := h.2
  refine ⟨h1, ?_, ?_⟩
  · show (stop_all_workers s).active_workers.length = 0
    rw [h1]
    rfl
  · intro t ht
    by_cases hc : t.cancelled = true
    · exact hc
    · exfalso
      have hc' : t.cancelled = false := by
        revert hc
        cases t.cancelled <;> simp
      have hmem2 := h2 t ht hc'
      rw [h1] at hmem2
      simp at hmem2

/-- C3 witness: StopAll on a registry of two workers empties the map, leaves
active count zero, and cancels both tasks. -/
theorem stop_all_workers_clears_witness :
    (stop_all_workers
        { active_workers := [(1, 10), (2, 11)]
          tasks := [{ tid := 10, devId := 1, devName := "a", devType := DeviceType.ANPR, cancelled := false },
                    { tid := 11, devId := 2, devName := "b", devType := DeviceType.FACE_READER, cancelled := false }]
          nextTid := 12, txLog := [] }).active_workers = [] ∧
    get_active_worker_count
        (stop_all_workers
          { active_workers := [(1, 10), (2, 11)]
            tasks := [{ tid := 10, devId := 1, devName := "a", devType := DeviceType.ANPR, cancelled := false },
                      { tid := 11, devId := 2, devName := "b", devType := DeviceType.FACE_READER, cancelled := false }]
            nextTid := 12, txLog := [] }) = 0 :=
  ⟨(stop_all_workers_clears
      { active_workers := [(1, 10), (2, 11)]
        tasks := [{ tid := 10, devId := 1, devName := "a", devType := DeviceType.ANPR, cancelled := false },
                  { tid := 11, devId := 2, devName := "b", devType := DeviceType.FACE_READER, cancelled := false }]
        nextTid := 12, txLog := [] }
      (by decide) (by decide)).1,
   (stop_all_workers_clears
      { active_workers := [(1, 10), (2, 11)]
        tasks := [{ tid := 10, devId := 1, devName := "a", devType := DeviceType.ANPR, cancelled := false },
                  { tid := 11, devId := 2, devName := "b", devType := DeviceType.FACE_READER, cancelled := false }]
        nextTid := 12, txLog := [] }
      (by decide) (by decide)).2.1⟩

/-- C1 witness: on the empty registry, the first Start for id 5 returns true
and registers exactly one handle, and the second Start returns false. -/
theorem start_device_worker_idempotent_witness :
    (5 : Nat) ∉ wkeys { active_workers := [], tasks := [], nextTid := 0, txLog := [] } ∧
    ((start_device_worker { active_workers := [], tasks := [], nextTid := 0, txLog := [] } 5 "cam" DeviceType.ANPR).2 = true ∧
     (wkeys (start_device_worker { active_workers := [], tasks := [], nextTid := 0, txLog := [] } 5 "cam" DeviceType.ANPR).1).count 5 = 1 ∧
     start_device_worker
         (start_device_worker { active_workers := [], tasks := [], nextTid := 0, txLog := [] } 5 "cam" DeviceType.ANPR).1
         5 "cam" DeviceType.ANPR =
       ((start_device_worker { active_workers := [], tasks := [], nextTid := 0, txLog := [] } 5 "cam" DeviceType.ANPR).1, false)) :=
  ⟨by decide,
   (start_device_worker_idempotent
     { active_workers := [], tasks := [], nextTid := 0, txLog := [] }
     5 "cam" DeviceType.ANPR).2 (by decide)⟩

/-! Claim theorems for the startup reconciler, the worker loop body, and the
store services. -/

/-- C4 counterexample: two active devices, where processing the first one
raises; the `lifespan` worker-start loop leaves the second device without a
worker, so an error on one device does prevent workers from being started
for the remaining devices. -/
theorem reconcile_workers_not_best_effort :
    is_worker_active
      (reconcile_workers (fun dv => dv.id == 1)
        { active_workers := [], tasks := [], nextTid := 0, txLog := [] }
        [{ id := 1, name := "A", device_type := DeviceType.ANPR, ip_address := "ip1",
           status := DeviceStatus.ACTIVE, created_at := 0, updated_at := 0 },
         { id := 2, name := "B", device_type := DeviceType.ANPR, ip_address := "ip2",
           status := DeviceStatus.ACTIVE, created_at := 0, updated_at := 0 }]) 2 = false := by
  decide

/-- C4 amended: an error while processing one active device is contained
(startup completes and keeps the workers started so far) but ends the
reconciliation loop: the resulting state is exactly the state after the
devices preceding the failing one, so the remaining devices get no workers. -/
theorem reconcile_workers_aborts_at_failure (fails : Device → Bool)
    (s : WorkerState) (pre : List Device) (x : Device) (post : List Device)
    (hpre : ∀ dv ∈ pre, fails dv = false) (hx : fails x = true) :
    reconcile_workers fails s (pre ++ x :: post) = reconcile_workers fails s pre := by
  induction pre generalizing s with
  | nil =>
      rw [List.nil_append]
      simp only [reconcile_workers]
      rw [if_pos hx]
  | cons dv pre' ih =>
      have hdv : fails dv = false := hpre dv (List.mem_cons_self _ _)
      have hpre' : ∀ e ∈ pre', fails e = false :=
        fun e he => hpre e (List.mem_cons_of_mem _ he)
      have hL : reconcile_workers fails s ((dv :: pre') ++ x :: post) =
          reconcile_workers fails
            (start_device_worker s dv.id dv.name dv.device_type).1
            (pre' ++ x :: post) := by
        rw [List.cons_append, reconcile_workers, if_neg (by simp [hdv])]
      have hR : reconcile_workers fails s (dv :: pre') =
          reconcile_workers fails
            (start_device_worker s dv.id dv.name dv.device_type).1 pre' := by
        rw [reconcile_workers, if_neg (by simp [hdv])]
      rw [hL, hR]
      exact ih _ hpre'

/-- C4 amended witness: a concrete run on devices [1, 2, 3] failing at 2:
the loop result equals the result of processing only device 1. -/
theorem reconcile_workers_aborts_at_failure_witness :
    (∀ dv ∈ [({ id := 1, name := "A", device_type := DeviceType.ANPR, ip_address := "ip1",
                status := DeviceStatus.ACTIVE, created_at := 0, updated_at := 0 } : Device)],
        (fun dv : Device => dv.id == 2) dv = false) ∧
    (fun dv : Device => dv.id == 2)
        { id := 2, name := "B", device_type := DeviceType.ANPR, ip_address := "ip2",
          status := DeviceStatus.ACTIVE, created_at := 0, updated_at := 0 } = true ∧
    reconcile_workers (fun dv => dv.id == 2)
        { active_workers := [], tasks := [], nextTid := 0, txLog := [] }
        ([{ id := 1, name := "A", device_type := DeviceType.ANPR, ip_address := "ip1",
            status := DeviceStatus.ACTIVE, created_at := 0, updated_at := 0 }] ++
          { id := 2, name := "B", device_type := DeviceType.ANPR, ip_address := "ip2",
            status := DeviceStatus.ACTIVE, created_at := 0, updated_at := 0 } ::
          [{ id := 3, name := "C", device_type := DeviceType.ANPR, ip_address := "ip3",
             status := DeviceStatus.ACTIVE, created_at := 0, updated_at := 0 }]) =
      reconcile_workers (fun dv => dv.id == 2)
        { active_workers := [], tasks := [], nextTid := 0, txLog := [] }
        [{ id := 1, name := "A", device_type := DeviceType.ANPR, ip_address := "ip1",
           status := DeviceStatus.ACTIVE, created_at := 0, updated_at := 0 }] :=
  ⟨by decide, by decide,
   reconcile_workers_aborts_at_failure (fun dv => dv.id == 2)
     { active_workers := [], tasks := [], nextTid := 0, txLog := [] }
     [{ id := 1, name := "A", device_type := DeviceType.ANPR, ip_address := "ip1",
        status := DeviceStatus.ACTIVE, created_at := 0, updated_at := 0 }]
     { id := 2, name := "B", device_type := DeviceType.ANPR, ip_address := "ip2",
       status := DeviceStatus.ACTIVE, created_at := 0, updated_at := 0 }
     [{ id := 3, name := "C", device_type := DeviceType.ANPR, ip_address := "ip3",
        status := DeviceStatus.ACTIVE, created_at := 0, updated_at := 0 }]
     (by decide) (by decide)⟩

lemma worker_iteration_present (db : Store) (device_id : Nat)
    (u e : String) (p : List (String × PValue))
    (h : deviceExists db device_id = true) :
    txCountFor (worker_iteration db device_id u e p) device_id =
      txCountFor db device_id + 1 := by
  have hf : ∃ dv, findDevice device_id db.devices = some dv := by
    rcases ho : findDevice device_id db.devices with _ | dv
    · rw [deviceExists, ho] at h
      simp at h
    · exact ⟨dv, rfl⟩
  rcases hf with ⟨dv, hf⟩
  simp only [worker_iteration, create_transaction]
  rw [hf]
  simp [txCountFor, List.countP_cons]

lemma worker_iteration_absent (db : Store) (device_id : Nat)
    (u e : String) (p : List (String × PValue))
    (h : deviceExists db device_id = false) :
    worker_iteration db device_id u e p = db := by
  have hf : findDevice device_id db.devices = none := by
    rcases ho : findDevice device_id db.devices with _ | dv
    · rfl
    · rw [deviceExists, ho] at h
      simp at h
  simp only [worker_iteration, create_transaction]
  rw [hf]

lemma deviceExists_setPresence (db : Store) (device_id : Nat) (b : Bool) :
    deviceExists (setPresence db device_id b) device_id = b := by
  cases b
  · simp [setPresence, deviceExists, findDevice_removeDeviceById]
  · cases he : deviceExists db device_id
    · have he' : (findDevice device_id db.devices).isSome = false := he
      simp [setPresence, deviceExists, he', findDevice]
    · have he' : (findDevice device_id db.devices).isSome = true := he
      simp [setPresence, deviceExists, he']

lemma txCountFor_setPresence (db : Store) (device_id d₂ : Nat) (b : Bool) :
    txCountFor (setPresence db device_id b) d₂ = txCountFor db d₂ := by
  cases b
  · simp [setPresence, txCountFor]
  · cases he : deviceExists db device_id
    · have he' : (findDevice device_id db.devices).isSome = false := he
      simp [setPresence, deviceExists, he', txCountFor]
    · have he' : (findDevice device_id db.devices).isSome = true := he
      simp [setPresence, deviceExists, he', txCountFor]

lemma device_worker_from_count (device_id : Nat) (env : Nat → Bool)
    (uname etype : Nat → String) (pl : Nat → List (String × PValue)) :
    ∀ (k i : Nat) (db : Store),
      txCountFor (device_worker_from device_id env uname etype pl i k db) device_id =
        txCountFor db device_id + envCount env i k := by
  intro k
  induction k with
  | zero =>
      intro i db
      rfl
  | succ k ih =>
      intro i db
      rw [device_worker_from, ih (i + 1), envCount]
      cases hb : env i
      · have habs : deviceExists (setPresence db device_id false) device_id = false :=
          deviceExists_setPresence db device_id false
        rw [worker_iteration_absent _ _ _ _ _ habs, txCountFor_setPresence]
        simp
      · have hpres : deviceExists (setPresence db device_id true) device_id = true :=
          deviceExists_setPresence db device_id true
        rw [worker_iteration_present _ _ _ _ _ hpres, txCountFor_setPresence]
        simp
        omega

/-- C5: the per-device loop survives emission failures.  Over any `n`
iterations, with the device's presence in the store varying arbitrarily
between iterations (`env`), the loop performs all `n` iterations and inserts
exactly one transaction per iteration in which the device exists: a failed
emission is swallowed and the loop continues, so iterations after a failure
still emit. -/
theorem device_worker_run_survives_failures (device_id : Nat)
    (env : Nat → Bool) (uname etype : Nat → String)
    (pl : Nat → List (String × PValue)) (n : Nat) (db : Store) :
    txCountFor (device_worker_run device_id env uname etype pl n db) device_id =
      txCountFor db device_id + envCount env 0 n :=
  device_worker_from_count device_id env uname etype pl n 0 db

/-- C7: the transaction emitter called with a device id absent from the
store fails with the not-found error and inserts no row — the returned store
is exactly the input store. -/
theorem create_transaction_absent_device (db : Store)
    (transaction_data : TransactionCreate)
    (h : deviceExists db transaction_data.device_id = false) :
    create_transaction db transaction_data =
      (db, Except.error (SvcError.notFound transaction_data.device_id)) := by
  have hf : findDevice transaction_data.device_id db.devices = none := by
    rcases ho : findDevice transaction_data.device_id db.devices with _ | dv
    · rfl
    · rw [deviceExists, ho] at h
      simp at h
  rw [create_transaction, hf]

/-- C7 witness: a store holding only device 1; the emitter called for
device 2 fails with not-found and returns the store unchanged. -/
theorem create_transaction_absent_device_witness :
    deviceExists
        { devices := [{ id := 1, name := "door", device_type := DeviceType.ACCESS_CONTROLLER,
                        ip_address := "ip", status := DeviceStatus.ACTIVE,
                        created_at := 0, updated_at := 0 }]
          transactions := [], next_id := 3, now := 5 } 2 = false ∧
    create_transaction
        { devices := [{ id := 1, name := "door", device_type := DeviceType.ACCESS_CONTROLLER,
                        ip_address := "ip", status := DeviceStatus.ACTIVE,
                        created_at := 0, updated_at := 0 }]
          transactions := [], next_id := 3, now := 5 }
        { username := "u", event_type := "e", payload := [], device_id := 2 } =
      ({ devices := [{ id := 1, name := "door", device_type := DeviceType.ACCESS_CONTROLLER,
                       ip_address := "ip", status := DeviceStatus.ACTIVE,
                       created_at := 0, updated_at := 0 }]
         transactions := [], next_id := 3, now := 5 },
       Except.error (SvcError.notFound 2)) :=
  ⟨by decide,
   create_transaction_absent_device
     { devices := [{ id := 1, name := "door", device_type := DeviceType.ACCESS_CONTROLLER,
                     ip_address := "ip", status := DeviceStatus.ACTIVE,
                     created_at := 0, updated_at := 0 }]
       transactions := [], next_id := 3, now := 5 }
     { username := "u", event_type := "e", payload := [], device_id := 2 }
     (by decide)⟩

/-- C9: every device created through `create_device` is persisted with
status INACTIVE regardless of caller input — the creation schema carries
only a name, a device-type string and an ip address, and the service sets
the status itself. -/
theorem create_device_always_inactive (db : Store)
    (name device_type ip_address : String) (dv : Device)
    (h : (create_device db
        { name := name, device_type := device_type, ip_address := ip_address }).2 =
      Except.ok dv) :
    dv.status = DeviceStatus.INACTIVE ∧
    dv ∈ (create_device db
        { name := name, device_type := device_type, ip_address := ip_address }).1.devices := by
  simp only [create_device] at h ⊢
  rcases ht : DeviceTypeOfString device_type with _ | t
  · rw [ht] at h
    simp at h
  · rw [ht] at h
    simp only at h
    injection h with h2
    subst h2
    exact ⟨rfl, List.mem_cons_self _ _⟩

/-- C9 witness: creating an anpr device on the empty store yields a device
with status INACTIVE. -/
theorem create_device_always_inactive_witness :
    ((create_device { devices := [], transactions := [], next_id := 0, now := 0 }
        { name := "cam1", device_type := "anpr", ip_address := "10.0.0.1" }).2 =
      Except.ok { id := 0, name := "cam1", device_type := DeviceType.ANPR,
                  ip_address := "10.0.0.1", status := DeviceStatus.INACTIVE,
                  created_at := 0, updated_at := 0 }) ∧
    (({ id := 0, name := "cam1", device_type := DeviceType.ANPR,
        ip_address := "10.0.0.1", status := DeviceStatus.INACTIVE,
        created_at := 0, updated_at := 0 } : Device).status = DeviceStatus.INACTIVE ∧
     ({ id := 0, name := "cam1", device_type := DeviceType.ANPR,
        ip_address := "10.0.0.1", status := DeviceStatus.INACTIVE,
        created_at := 0, updated_at := 0 } : Device) ∈
       (create_device { devices := [], transactions := [], next_id := 0, now := 0 }
         { name := "cam1", device_type := "anpr", ip_address := "10.0.0.1" }).1.devices) :=
  ⟨rfl,
   create_device_always_inactive
     { devices := [], transactions := [], next_id := 0, now := 0 }
     "cam1" "anpr" "10.0.0.1"
     { id := 0, name := "cam1", device_type := DeviceType.ANPR,
       ip_address := "10.0.0.1", status := DeviceStatus.INACTIVE,
       created_at := 0, updated_at := 0 }
     rfl⟩

/-- C10: toggling an existing device's status maps ACTIVE to INACTIVE and
INACTIVE to ACTIVE, and toggling twice in succession returns the status to
its original value. -/
theorem toggle_device_status_involution (db : Store) (device_id : Nat)
    (dv : Device) (h : get_device_by_id db device_id = some dv) :
    ((toggle_device_status db device_id).2.map Device.status) =
      some (if dv.status = DeviceStatus.ACTIVE
            then DeviceStatus.INACTIVE else DeviceStatus.ACTIVE) ∧
    ((toggle_device_status (toggle_device_status db device_id).1 device_id).2.map
        Device.status) = some dv.status := by
  have h' : findDevice device_id db.devices = some dv := h
  have hid : dv.id = device_id := findDevice_eq_some_id h'
  have ht1 : toggle_device_status db device_id =
      ({ db with devices := updateDevice (toggledDevice db dv) db.devices },
       some (toggledDevice db dv)) := by
    rw [toggle_device_status, get_device_by_id, h']
    rfl
  have h2 : get_device_by_id (toggle_device_status db device_id).1 device_id =
      some (toggledDevice db dv) := by
    rw [ht1]
    exact findDevice_updateDevice h' _ hid
  have ht2 : toggle_device_status (toggle_device_status db device_id).1 device_id =
      ({ (toggle_device_status db device_id).1 with
          devices := updateDevice
            (toggledDevice (toggle_device_status db device_id).1 (toggledDevice db dv))
            (toggle_device_status db device_id).1.devices },
       some (toggledDevice (toggle_device_status db device_id).1 (toggledDevice db dv))) := by
    rw [toggle_device_status, h2]
    rfl
  refine ⟨?_, ?_⟩
  · rw [ht1]
    rfl
  · rw [ht2]
    show some (toggledDevice _ (toggledDevice db dv)).status = some dv.status
    show some (if (if dv.status = DeviceStatus.ACTIVE
                   then DeviceStatus.INACTIVE else DeviceStatus.ACTIVE) = DeviceStatus.ACTIVE
               then DeviceStatus.INACTIVE else DeviceStatus.ACTIVE) = some dv.status
    cases hst : dv.status <;> simp [hst]

lemma choice_plate_upper (r : Nat) :
    isUpperAZ (choice PLATE_CHARS.data 'A' r) = true := by
  have hall : ∀ i, i < 26 → isUpperAZ (PLATE_CHARS.data.getD i 'A') = true := by
    decide
  have hlt : r % PLATE_CHARS.data.length < 26 := by
    have h26 : PLATE_CHARS.data.length = 26 := by decide
    rw [h26]
    exact Nat.mod_lt _ (by decide)
  exact hall _ hlt

lemma choice_plate_digit (r : Nat) :
    isDigit09 (choice PLATE_NUMS.data '0' r) = true := by
  have hall : ∀ i, i < 10 → isDigit09 (PLATE_NUMS.data.getD i '0') = true := by
    decide
  have hlt : r % PLATE_NUMS.data.length < 10 := by
    have h10 : PLATE_NUMS.data.length = 10 := by decide
    rw [h10]
    exact Nat.mod_lt _ (by decide)
  exact hall _ hlt

lemma platePattern_plateNumber (r : Nat → Nat) :
    platePattern (plateNumber r) = true := by
  simp only [plateNumber, platePattern]
  simp [choice_plate_upper, choice_plate_digit]

lemma camera_id_mem (r : Nat) :
    ("CAM-" ++ toString (randint 1 5 r)) ∈
      ["CAM-1", "CAM-2", "CAM-3", "CAM-4", "CAM-5"] := by
  have hall : ∀ i, i < 5 → ("CAM-" ++ toString (1 + i)) ∈
      ["CAM-1", "CAM-2", "CAM-3", "CAM-4", "CAM-5"] := by decide
  have hlt : r % 5 < 5 := Nat.mod_lt _ (by decide)
  exact hall _ hlt

lemma vehicle_type_mem (r : Nat) :
    choice VEHICLE_TYPES "car" r ∈ ["car", "truck", "motorcycle", "van"] := by
  have hall : ∀ i, i < 4 → VEHICLE_TYPES.getD i "car" ∈
      ["car", "truck", "motorcycle", "van"] := by decide
  have hlt : r % VEHICLE_TYPES.length < 4 := by
    have h4 : VEHICLE_TYPES.length = 4 := by decide
    rw [h4]
    exact Nat.mod_lt _ (by decide)
  exact hall _ hlt

/-- C8: for every random draw stream, the anpr payload contains a plate
number matching the pattern three uppercase letters, hyphen, four digits, a
camera id among CAM-1 … CAM-5, and a vehicle type drawn from car, truck,
motorcycle, van. -/
theorem anpr_payload_wellformed (event_type : String) (r : Nat → Nat) :
    ∃ plate cam veh : String,
      ("plate_number", PValue.s plate) ∈
          generate_transaction_payload DeviceType.ANPR event_type r ∧
      platePattern plate = true ∧
      ("camera_id", PValue.s cam) ∈
          generate_transaction_payload DeviceType.ANPR event_type r ∧
      cam ∈ ["CAM-1", "CAM-2", "CAM-3", "CAM-4", "CAM-5"] ∧
      ("vehicle_type", PValue.s veh) ∈
          generate_transaction_payload DeviceType.ANPR event_type r ∧
      veh ∈ ["car", "truck", "motorcycle", "van"] := by
  refine ⟨plateNumber r, "CAM-" ++ toString (randint 1 5 (r 9)),
          choice VEHICLE_TYPES "car" (r 10),
          ?_, platePattern_plateNumber r,
          ?_, camera_id_mem (r 9),
          ?_, vehicle_type_mem (r 10)⟩
  · simp [generate_transaction_payload]
  · simp [generate_transaction_payload]
  · simp [generate_transaction_payload]

/-- C10 witness: a store with one ACTIVE device; one toggle yields INACTIVE
and a second toggle restores ACTIVE. -/
theorem toggle_device_status_involution_witness :
    get_device_by_id
        { devices := [{ id := 4, name := "gate", device_type := DeviceType.ANPR,
                        ip_address := "ip", status := DeviceStatus.ACTIVE,
                        created_at := 0, updated_at := 0 }]
          transactions := [], next_id := 5, now := 9 } 4 =
      some { id := 4, name := "gate", device_type := DeviceType.ANPR,
             ip_address := "ip", status := DeviceStatus.ACTIVE,
             created_at := 0, updated_at := 0 } ∧
    (((toggle_device_status
          { devices := [{ id := 4, name := "gate", device_type := DeviceType.ANPR,
                          ip_address := "ip", status := DeviceStatus.ACTIVE,
                          created_at := 0, updated_at := 0 }]
            transactions := [], next_id := 5, now := 9 } 4).2.map Device.status) =
        some (if DeviceStatus.ACTIVE = DeviceStatus.ACTIVE
              then DeviceStatus.INACTIVE else DeviceStatus.ACTIVE) ∧
     ((toggle_device_status
          (toggle_device_status
            { devices := [{ id := 4, name := "gate", device_type := DeviceType.ANPR,
                            ip_address := "ip", status := DeviceStatus.ACTIVE,
                            created_at := 0, updated_at := 0 }]
              transactions := [], next_id := 5, now := 9 } 4).1 4).2.map Device.status) =
        some DeviceStatus.ACTIVE) :=
  ⟨rfl,
   toggle_device_status_involution
     { devices := [{ id := 4, name := "gate", device_type := DeviceType.ANPR,
                     ip_address := "ip", status := DeviceStatus.ACTIVE,
                     created_at := 0, updated_at := 0 }]
       transactions := [], next_id := 5, now := 9 } 4
     { id := 4, name := "gate", device_type := DeviceType.ANPR,
       ip_address := "ip", status := DeviceStatus.ACTIVE,
       created_at := 0, updated_at := 0 }
     rfl⟩

end ELID
